import Mathlib

/-!
Verification of the baby-names session synchronization protocol.

The definitions below are a shallow embedding of the session sync engine
(`sessionSync.js`, `createSessionSync`) and of the ntfy room supervisor
(`ntfySession.js` / `peerSession.js`).  JavaScript `Set` objects holding
strings are embedded as insertion-ordered duplicate-free lists; payload
fields that the source guards with `Array.isArray` / `Number.isFinite`
are embedded as `Option` fields (`none` means the field is absent or of
the wrong shape); network publishes and UI callbacks are embedded as an
ordered list of emitted events.
-/

namespace BabyNames

/-- `Set.add` on a JS string set: append the element unless present. -/
def setAdd (s : List String) (x : String) : List String :=
  if x ∈ s then s else s ++ [x]

/-- `new Set(xs)` : deduplicate, keeping first occurrences in order. -/
def setOfList (xs : List String) : List String :=
  xs.foldl setAdd []

/-- One entry of the legacy `payload.users` array. -/
structure UserEntry where
  userId : String
  likes : Option (List String)
  likeVersion : Option Int
deriving DecidableEq

/-- An inbound message payload.  `none` models a missing field or one that
fails the source's `Array.isArray` / `Number.isFinite` guard. -/
structure Payload where
  likes : Option (List String) := none
  likeVersion : Option Int := none
  users : Option (List UserEntry) := none
deriving DecidableEq

/-- A parsed envelope `{type, senderId, payload}`. -/
structure Message where
  type : String
  senderId : String
  payload : Payload
deriving DecidableEq

/-- Outbound envelopes built by `publishMessage(type, payload)`. -/
inductive OutMsg where
  | likesBatch (likes : List String) (likeVersion : Int)
  | resyncRequest (knownVersion : Int)
  | stateSnapshot (likes : List String) (likeVersion : Int)
  | joinMsg (likeVersion : Int)
deriving DecidableEq

/-- Observable effects of one engine operation, in emission order. -/
inductive Event where
  | publish (m : OutMsg)
  | matchesUpdated (ms : List String)
  | connectionChange (connected : Bool)
  | connectedCb
  | matchFound (name : String)
deriving DecidableEq

/-- Whether an event is a network publish. -/
def isPublishEvent : Event → Bool
  | Event.publish _ => true
  | _ => false

/-- The mutable state of `createSessionSync`, together with the slice of
local storage it reads and writes (`getLikes`, `get/setPartnerLikes`). -/
structure SyncState where
  myLikeVersion : Int
  pendingLikeBuffer : List String
  debounceActive : Bool
  partnerLikes : List String
  partnerLikeVersion : Int
  knownMatches : List String
  localLikes : List String
  storedPartnerLikes : List String
deriving DecidableEq

/-- `getMatches()` : local likes filtered by partner-set membership. -/
def getMatches (s : SyncState) : List String :=
  s.localLikes.filter (fun n => s.partnerLikes.contains n)

/-- `emitMatches()` : recompute matches, refresh the known-matches cache,
invoke the matches-updated callback. -/
def emitMatches (s : SyncState) : SyncState × List Event :=
  let ms := getMatches s
  ({ s with knownMatches := setOfList ms }, [Event.matchesUpdated ms])

/-- `applyPartnerSnapshot(snapshotPayload)` : wholesale replacement of the
partner state, persistence, match recomputation and connect callbacks. -/
def applyPartnerSnapshot (s : SyncState) (p : Payload) : SyncState × List Event :=
  let likes := p.likes.getD []
  let likeVersion := p.likeVersion.getD 0
  let s1 := { s with partnerLikes := setOfList likes, partnerLikeVersion := likeVersion }
  let s2 := { s1 with storedPartnerLikes := s1.partnerLikes }
  let r := emitMatches s2
  (r.1, r.2 ++ [Event.connectionChange true, Event.connectedCb])

/-- `resolveSnapshotPayload(message)` : normalize the snapshot payload,
supporting the legacy `users` array shape keyed by `senderId`. -/
def resolveSnapshotPayload (m : Message) : Option Payload :=
  match m.payload.users with
  | some users =>
    match users.find? (fun e => e.userId == m.senderId) with
    | none => none
    | some e =>
      some { likes := some (e.likes.getD []), likeVersion := some (e.likeVersion.getD 0) }
  | none =>
    some { likes := some (m.payload.likes.getD []),
           likeVersion := some (m.payload.likeVersion.getD 0) }

/-- `publishSnapshot()` : publish own full like list and current version. -/
def publishSnapshot (s : SyncState) : SyncState × List Event :=
  (s, [Event.publish (OutMsg.stateSnapshot s.localLikes s.myLikeVersion)])

/-- `handleLikesBatch(message)` : accept a batch only when its version is
exactly the cached partner version plus one; otherwise request a resync. -/
def handleLikesBatch (s : SyncState) (m : Message) : SyncState × List Event :=
  let incomingLikes := m.payload.likes.getD []
  match m.payload.likeVersion with
  | none => (s, [Event.publish (OutMsg.resyncRequest s.partnerLikeVersion)])
  | some v =>
    if v ≠ s.partnerLikeVersion + 1 then
      (s, [Event.publish (OutMsg.resyncRequest s.partnerLikeVersion)])
    else
      let partnerLikes' := incomingLikes.foldl setAdd s.partnerLikes
      let s1 := { s with partnerLikes := partnerLikes', partnerLikeVersion := v,
                         storedPartnerLikes := partnerLikes' }
      let r := emitMatches s1
      (r.1, r.2 ++ [Event.connectionChange true, Event.connectedCb])

/-- `flushPendingLikes()` : on debounce fire, publish the buffered likes as
one batch with a freshly incremented version.  `inRoom` is the value of
`config.isInRoom()`; `publishOk` is whether the network publish succeeds
(a failure is caught and only logged). -/
def flushPendingLikes (s : SyncState) (inRoom : Bool) (publishOk : Bool) :
    SyncState × List Event :=
  let s0 := { s with debounceActive := false }
  if inRoom = false ∨ s0.pendingLikeBuffer = [] then (s0, [])
  else
    let likes := s0.pendingLikeBuffer
    let s1 := { s0 with pendingLikeBuffer := [], myLikeVersion := s0.myLikeVersion + 1 }
    if publishOk then
      (s1, [Event.publish (OutMsg.likesBatch likes s1.myLikeVersion)])
    else
      (s1, [])

/-- `clearPendingLikes()`. -/
def clearPendingLikes (s : SyncState) : SyncState :=
  { s with debounceActive := false, pendingLikeBuffer := [] }

/-- `resetPartnerState()` (including `clearPartnerLikes()` in storage). -/
def resetPartnerState (s : SyncState) : SyncState :=
  { s with partnerLikes := [], partnerLikeVersion := 0, knownMatches := [],
           storedPartnerLikes := [] }

/-- `sendJoinHandshake()` : publish `join` then a proactive snapshot. -/
def sendJoinHandshake (s : SyncState) : SyncState × List Event :=
  let r := publishSnapshot s
  (r.1, Event.publish (OutMsg.joinMsg s.myLikeVersion) :: r.2)

/-- `handleMessage(message)` for a non-null message: echo suppression by
sender id, then dispatch on the envelope type. -/
def handleMessage (s : SyncState) (instanceId : String) (m : Message) :
    SyncState × List Event :=
  if m.senderId == instanceId then (s, [])
  else if m.type == "join" then publishSnapshot s
  else if m.type == "state_snapshot" then
    match resolveSnapshotPayload m with
    | some p => applyPartnerSnapshot s p
    | none => (s, [])
  else if m.type == "likes_batch" then handleLikesBatch s m
  else if m.type == "resync_request" then publishSnapshot s
  else if m.type == "resync_response" then
    applyPartnerSnapshot s
      { likes := some (m.payload.likes.getD []),
        likeVersion := some (m.payload.likeVersion.getD s.partnerLikeVersion) }
  else (s, [])

/-- `prepareForJoin()` : clear the pending buffer, reset partner state,
zero the local like version. -/
def prepareForJoin (s : SyncState) : SyncState :=
  { resetPartnerState (clearPendingLikes s) with myLikeVersion := 0 }

/-- `initializeFromStorage()` : reload the cached partner like set (version
conservatively 0) and re-announce matches. -/
def initializeFromStorage (s : SyncState) : SyncState × List Event :=
  let s1 := { s with partnerLikes := setOfList s.storedPartnerLikes, partnerLikeVersion := 0 }
  emitMatches s1

/-- `notifyLike(name)` : buffer the like, give immediate local match
feedback when the partner already likes the name, restart the debounce. -/
def notifyLike (s : SyncState) (inRoom : Bool) (name : String) :
    SyncState × List Event :=
  if inRoom = false ∨ name = "" then (s, [])
  else
    let s1 := { s with pendingLikeBuffer := setAdd s.pendingLikeBuffer name }
    let r :=
      if s1.partnerLikes.contains name then
        let ms := getMatches s1
        if ms.contains name && !(s1.knownMatches.contains name) then
          let r2 := emitMatches s1
          (r2.1, Event.matchFound name :: r2.2)
        else (s1, ([] : List Event))
      else (s1, ([] : List Event))
    ({ r.1 with debounceActive := true }, r.2)

/-- A sequence of `notifyLike` calls inside one debounce window (each call
restarts the timer, so no flush happens in between). -/
def notifyMany (s : SyncState) (inRoom : Bool) : List String → SyncState × List Event
  | [] => (s, [])
  | n :: rest =>
    let r := notifyLike s inRoom n
    let r2 := notifyMany r.1 inRoom rest
    (r2.1, r.2 ++ r2.2)

/-- The engine operations a caller (UI or supervisor) can perform. -/
inductive Op where
  | notifyLikeOp (inRoom : Bool) (name : String)
  | flushOp (inRoom : Bool) (publishOk : Bool)
  | handleMessageOp (instanceId : String) (m : Message)
  | prepareForJoinOp
  | initializeFromStorageOp
  | sendJoinHandshakeOp
  | clearPendingLikesOp
  | resetPartnerStateOp
  | emitMatchesOp

/-- One engine step: dispatch an operation to its handler. -/
def step (s : SyncState) (op : Op) : SyncState × List Event :=
  match op with
  | Op.notifyLikeOp inRoom name => notifyLike s inRoom name
  | Op.flushOp inRoom publishOk => flushPendingLikes s inRoom publishOk
  | Op.handleMessageOp instanceId m => handleMessage s instanceId m
  | Op.prepareForJoinOp => (prepareForJoin s, [])
  | Op.initializeFromStorageOp => initializeFromStorage s
  | Op.sendJoinHandshakeOp => sendJoinHandshake s
  | Op.clearPendingLikesOp => (clearPendingLikes s, [])
  | Op.resetPartnerStateOp => (resetPartnerState s, [])
  | Op.emitMatchesOp => emitMatches s

/-! ### Supervisor embedding (`ntfySession.js`, file `part_008`) -/

/-- The `ConnectionStatus` enumeration of the room supervisor. -/
inductive ConnStatus where
  | DISCONNECTED
  | CONNECTING
  | IN_ROOM
  | CONNECTED
  | ERROR
deriving DecidableEq

/-- Status message shown when the connected transition fires. -/
def connectedSpouseMsg : String := "Connected to spouse!"

/-- Supervisor-level observable effects. -/
inductive TopEvent where
  | statusChange (st : ConnStatus) (msg : String)
  | uiConnectionChange (connected : Bool)
  | uiMatchesUpdated (ms : List String)
  | uiMatchFound (name : String)
  | netPublish (m : OutMsg)
deriving DecidableEq

/-- The supervisor's module-level state (`ntfySession.js`): active topic,
persisted topic (`get/setSessionTopic` in storage), generation counter,
current status, and the owned sync engine. -/
structure NtfyState where
  currentTopic : Option String
  storedTopic : Option String
  sessionGeneration : Int
  status : ConnStatus
  sync : SyncState
deriving DecidableEq

/-- Interpretation of one engine callback by the supervisor's `config`
wiring: `onConnected` only changes status on the transition into
`CONNECTED`; the other callbacks forward to the UI or the network. -/
def applyEvent (status : ConnStatus) (e : Event) : ConnStatus × List TopEvent :=
  match e with
  | Event.publish m => (status, [TopEvent.netPublish m])
  | Event.matchesUpdated ms => (status, [TopEvent.uiMatchesUpdated ms])
  | Event.connectionChange b => (status, [TopEvent.uiConnectionChange b])
  | Event.matchFound n => (status, [TopEvent.uiMatchFound n])
  | Event.connectedCb =>
    if status = ConnStatus.CONNECTED then (status, [])
    else (ConnStatus.CONNECTED, [TopEvent.statusChange ConnStatus.CONNECTED connectedSpouseMsg])

/-- Sequential interpretation of the engine's emitted callbacks. -/
def applyEvents (status : ConnStatus) : List Event → ConnStatus × List TopEvent
  | [] => (status, [])
  | e :: rest =>
    let r1 := applyEvent status e
    let r2 := applyEvents r1.1 rest
    (r2.1, r1.2 ++ r2.2)

/-- An inbound message routed through the supervisor into the engine
(`ws.onmessage` → `sync.handleMessage`) with its callbacks interpreted. -/
def ntfyHandleMessage (st : NtfyState) (instanceId : String) (m : Message) :
    NtfyState × List TopEvent :=
  let r := handleMessage st.sync instanceId m
  let r2 := applyEvents st.status r.2
  ({ st with sync := r.1, status := r2.1 }, r2.2)

/-- ASCII lower-casing of one character, as `toLowerCase()` acts on the
code points a room code can contain. -/
def jsToLowerChar (c : Char) : Char :=
  if 'A' ≤ c ∧ c ≤ 'Z' then Char.ofNat (c.toNat + 32) else c

/-- `normalizeRoomCode(roomCode)` : `trim()` (drop leading and trailing
whitespace) then `toLowerCase()`. -/
def normalizeRoomCode (roomCode : String) : String :=
  String.mk
    ((((roomCode.data.dropWhile Char.isWhitespace).reverse.dropWhile
        Char.isWhitespace).reverse).map jsToLowerChar)

/-- `ROOM_CODE_PATTERN` : exactly eight lowercase-alphanumeric chars. -/
def isValidRoomCode (code : String) : Bool :=
  code.length = 8 &&
    code.toList.all (fun c => (decide ('a' ≤ c) && decide (c ≤ 'z')) ||
      (decide ('0' ≤ c) && decide (c ≤ '9')))

/-- Result of a `joinSession` call. -/
structure JoinResult where
  state : NtfyState
  events : List TopEvent
  ok : Bool
deriving DecidableEq

/-- `joinSession(roomCode)` : validate the code (an invalid code throws
with no state change), call `sync.prepareForJoin()`, set the current topic
and persist it with `setSessionTopic`, then open the socket.  `openOk`
says whether the socket open succeeds within the timeout; on success the
join handshake is published and status becomes `IN_ROOM`; on timeout or
socket error status becomes `ERROR` and the call rejects. -/
def joinSession (st : NtfyState) (roomCode : String) (openOk : Bool) : JoinResult :=
  let normalized := normalizeRoomCode roomCode
  if isValidRoomCode normalized = false then
    { state := st, events := [], ok := false }
  else
    let st1 := { st with sync := prepareForJoin st.sync,
                         currentTopic := some normalized,
                         storedTopic := some normalized }
    let st2 := { st1 with status := ConnStatus.CONNECTING,
                          sessionGeneration := st1.sessionGeneration + 1 }
    if openOk then
      let r := sendJoinHandshake st2.sync
      let r2 := applyEvents st2.status r.2
      { state := { st2 with sync := r.1, status := ConnStatus.IN_ROOM },
        events := r2.2,
        ok := true }
    else
      { state := { st2 with status := ConnStatus.ERROR }, events := [], ok := false }

/-! ### Reconnect supervisor embedding (`peerSession.js`, ntfy variant) -/

/-- `RECONNECT_CONFIG.maxAttempts`. -/
def maxAttempts : Nat := 5

/-- `RECONNECT_CONFIG.baseDelay` (ms). -/
def baseDelay : ℚ := 2000

/-- `RECONNECT_CONFIG.maxDelay` (ms). -/
def maxDelay : ℚ := 30000

/-- `RECONNECT_CONFIG.jitter`. -/
def jitterFactor : ℚ := 1 / 2

/-- `calculateBackoffDelay(attempt)` with `Math.random()` passed in as the
rational `rand`: `floor(min(base*2^attempt*(1 + jitter*rand), maxDelay))`. -/
def calculateBackoffDelay (attempt : Nat) (rand : ℚ) : Int :=
  let exponentialDelay : ℚ := baseDelay * 2 ^ attempt
  let jitter : ℚ := exponentialDelay * jitterFactor * rand
  ⌊min (exponentialDelay + jitter) maxDelay⌋

/-- The `tryConnect` retry loop of `scheduleReconnect` on a run in which
every connection attempt fails: `reconnectAttempt` is incremented, and on
failure the loop either gives up — setting status `IN_ROOM` with message
'Spouse unavailable' — once `maxAttempts` is reached, or schedules the
next attempt after `calculateBackoffDelay(reconnectAttempt)`.  `rand a`
is the jitter sample used after attempt `a` fails; the returned list is
the sequence of scheduled retry delays.  `fuel` bounds the recursion and
is immaterial once it is at least `maxAttempts`. -/
def tryConnectAllFail (rand : Nat → ℚ) : Nat → Nat → List Int × ConnStatus
  | 0, _ => ([], ConnStatus.CONNECTING)
  | fuel + 1, reconnectAttempt =>
    let a := reconnectAttempt + 1
    if maxAttempts ≤ a then ([], ConnStatus.IN_ROOM)
    else
      let d := calculateBackoffDelay a (rand a)
      let r := tryConnectAllFail rand fuel a
      (d :: r.1, r.2)

/-- `scheduleReconnect()` on an all-failure run, starting from
`reconnectAttempt = 0`. -/
def scheduleReconnectAllFail (rand : Nat → ℚ) : List Int × ConnStatus :=
  tryConnectAllFail rand maxAttempts 0

/-! ### Helper lemmas about the JS-set embedding -/

theorem mem_setAdd {s : List String} {x y : String} :
    x ∈ setAdd s y ↔ x ∈ s ∨ x = y := by
  by_cases h : y ∈ s
  · simp only [setAdd, if_pos h]
    exact ⟨Or.inl, fun hor => hor.elim id (fun he => he ▸ h)⟩
  · simp [setAdd, if_neg h]

theorem nodup_setAdd {s : List String} {y : String} (h : s.Nodup) :
    (setAdd s y).Nodup := by
  by_cases hy : y ∈ s
  · simpa [setAdd, if_pos hy] using h
  · simp [setAdd, if_neg hy, List.nodup_append, h, hy]

theorem mem_foldl_setAdd {x : String} :
    ∀ (l : List String) (init : List String),
      x ∈ l.foldl setAdd init ↔ x ∈ init ∨ x ∈ l := by
  intro l
  induction l with
  | nil => simp
  | cons y l ih =>
    intro init
    rw [List.foldl_cons, ih, mem_setAdd]
    simp [or_assoc, or_comm, or_left_comm]

theorem nodup_foldl_setAdd :
    ∀ (l : List String) (init : List String), init.Nodup →
      (l.foldl setAdd init).Nodup := by
  intro l
  induction l with
  | nil => intro init h; simpa using h
  | cons y l ih =>
    intro init h
    rw [List.foldl_cons]
    exact ih _ (nodup_setAdd h)

theorem mem_setOfList {x : String} {xs : List String} :
    x ∈ setOfList xs ↔ x ∈ xs := by
  simp [setOfList, mem_foldl_setAdd]

theorem nodup_setOfList {xs : List String} : (setOfList xs).Nodup :=
  nodup_foldl_setAdd xs [] List.nodup_nil

theorem mem_getMatches {s : SyncState} {x : String} :
    x ∈ getMatches s ↔ x ∈ s.localLikes ∧ x ∈ s.partnerLikes := by
  simp [getMatches, List.mem_filter]

theorem notifyLike_result (s : SyncState) (n : String) (h : ¬ n = "") :
    ((notifyLike s true n).1).pendingLikeBuffer = setAdd s.pendingLikeBuffer n ∧
    ((notifyLike s true n).1).myLikeVersion = s.myLikeVersion ∧
    ((notifyLike s true n).1).localLikes = s.localLikes ∧
    ((notifyLike s true n).2).filter isPublishEvent = [] := by
  unfold notifyLike emitMatches
  have hcond : ¬ (true = false ∨ n = "") := by simp [h]
  rw [if_neg hcond]
  dsimp only
  split_ifs <;> simp [isPublishEvent, List.filter]

theorem notifyMany_result (names : List String) :
    ∀ s : SyncState, (∀ n ∈ names, ¬ n = "") →
    ((notifyMany s true names).1).pendingLikeBuffer = names.foldl setAdd s.pendingLikeBuffer ∧
    ((notifyMany s true names).1).myLikeVersion = s.myLikeVersion ∧
    ((notifyMany s true names).2).filter isPublishEvent = [] := by
  induction names with
  | nil => intro s _; simp [notifyMany]
  | cons n rest ih =>
    intro s hall
    have hn : ¬ n = "" := hall n (List.mem_cons_self n rest)
    have hrest : ∀ x ∈ rest, ¬ x = "" := fun x hx => hall x (List.mem_cons_of_mem n hx)
    have h1 := notifyLike_result s n hn
    have h2 := ih (notifyLike s true n).1 hrest
    refine ⟨?_, ?_, ?_⟩
    · rw [show (notifyMany s true (n :: rest)).1 = (notifyMany (notifyLike s true n).1 true rest).1 from rfl]
      rw [h2.1, h1.1, List.foldl_cons]
    · rw [show (notifyMany s true (n :: rest)).1 = (notifyMany (notifyLike s true n).1 true rest).1 from rfl]
      rw [h2.2.1, h1.2.1]
    · rw [show (notifyMany s true (n :: rest)).2 =
          (notifyLike s true n).2 ++ (notifyMany (notifyLike s true n).1 true rest).2 from rfl]
      rw [List.filter_append, h1.2.2.2, h2.2.2, List.nil_append]

theorem handleMessage_snapshot_eq (st : SyncState) (iid : String) (m : Message)
    (likes : List String) (v : Int)
    (hsender : ¬ m.senderId = iid)
    (htype : m.type = "state_snapshot" ∨ m.type = "resync_response")
    (husers : m.payload.users = none)
    (hlikes : m.payload.likes = some likes)
    (hver : m.payload.likeVersion = some v) :
    handleMessage st iid m =
      applyPartnerSnapshot st { likes := some likes, likeVersion := some v, users := none } := by
  rcases htype with ht | ht
  · unfold handleMessage
    rw [ht]
    simp only [beq_iff_eq, hsender, if_false]
    norm_num
    unfold resolveSnapshotPayload
    rw [husers, hlikes, hver]
    rw [if_neg (show ¬ ("state_snapshot" : String) = "join" from by decide)]
    rfl
  · unfold handleMessage
    rw [ht]
    simp only [beq_iff_eq, hsender, if_false]
    norm_num
    rw [hlikes, hver]
    rw [if_neg (show ¬ ("resync_response" : String) = "join" from by decide),
        if_neg (show ¬ ("resync_response" : String) = "state_snapshot" from by decide),
        if_neg (show ¬ ("resync_response" : String) = "likes_batch" from by decide),
        if_neg (show ¬ ("resync_response" : String) = "resync_request" from by decide)]
    rfl

theorem applyPartnerSnapshot_myLikeVersion (s : SyncState) (p : Payload) :
    ((applyPartnerSnapshot s p).1).myLikeVersion = s.myLikeVersion := rfl

theorem handleLikesBatch_myLikeVersion (s : SyncState) (m : Message) :
    ((handleLikesBatch s m).1).myLikeVersion = s.myLikeVersion := by
  unfold handleLikesBatch
  cases hv : m.payload.likeVersion with
  | none => rfl
  | some v =>
    dsimp only
    split_ifs <;> rfl

theorem handleMessage_myLikeVersion (s : SyncState) (iid : String) (m : Message) :
    ((handleMessage s iid m).1).myLikeVersion = s.myLikeVersion := by
  unfold handleMessage
  split_ifs <;> try rfl
  · cases resolveSnapshotPayload m with
    | none => rfl
    | some p => exact applyPartnerSnapshot_myLikeVersion s p
  · exact handleLikesBatch_myLikeVersion s m

theorem notifyLike_myLikeVersion (s : SyncState) (inRoom : Bool) (n : String) :
    ((notifyLike s inRoom n).1).myLikeVersion = s.myLikeVersion := by
  unfold notifyLike emitMatches
  dsimp only
  split_ifs <;> rfl

/-! ### Claim theorems -/

/-- C1: for every reachable engine state — in particular after every
operation (`notifyLike`, `handleMessage`, `prepareForJoin`,
`initializeFromStorage`, flushes, resets) — `getMatches()` reports exactly
the intersection of the local like list and the cached remote like set:
an item is a match iff it is in both. -/
theorem C1_matches_intersection (s : SyncState) (op : Op) (x : String) :
    x ∈ getMatches (step s op).1 ↔
      x ∈ ((step s op).1).localLikes ∧ x ∈ ((step s op).1).partnerLikes :=
  mem_getMatches

/-- C2: a `likes_batch` from a foreign sender whose version is missing,
non-numeric, or not exactly the cached remote version plus one leaves the
engine state completely unchanged and emits exactly one `resync_request`
whose `knownVersion` is the current cached remote version. -/
theorem C2_gap_batch_resync (s : SyncState) (iid : String) (m : Message)
    (hsender : ¬ m.senderId = iid) (htype : m.type = "likes_batch")
    (hver : ∀ v, m.payload.likeVersion = some v → ¬ v = s.partnerLikeVersion + 1) :
    handleMessage s iid m =
      (s, [Event.publish (OutMsg.resyncRequest s.partnerLikeVersion)]) := by
  unfold handleMessage
  rw [htype]
  simp only [beq_iff_eq, hsender, if_false]
  norm_num
  unfold handleLikesBatch
  cases hv : m.payload.likeVersion with
  | none => simp
  | some v => simp [hver v hv]

/-- C2 witness: remote version 3 plus a batch claiming version 5 is
dropped and answered with `resync_request {knownVersion: 3}`. -/
theorem C2_gap_batch_resync_witness :
    (¬ "peer-2" = "peer-1") ∧
      handleMessage
        { myLikeVersion := 0, pendingLikeBuffer := [], debounceActive := false,
          partnerLikes := ["Emma"], partnerLikeVersion := 3, knownMatches := [],
          localLikes := ["Emma"], storedPartnerLikes := ["Emma"] }
        "peer-1"
        { type := "likes_batch", senderId := "peer-2",
          payload := { likes := some ["Noah"], likeVersion := some 5 } } =
      ({ myLikeVersion := 0, pendingLikeBuffer := [], debounceActive := false,
         partnerLikes := ["Emma"], partnerLikeVersion := 3, knownMatches := [],
         localLikes := ["Emma"], storedPartnerLikes := ["Emma"] },
       [Event.publish (OutMsg.resyncRequest 3)]) :=
  ⟨by decide, C2_gap_batch_resync _ _ _ (by decide) (by decide)
    (by intro v hv; simp at hv; subst hv; decide)⟩

/-- C3: a `likes_batch` from a foreign sender whose version is exactly the
cached remote version plus one is applied: the payload's items are unioned
into the cached remote like set (no existing item is removed), the remote
version becomes the payload's version, the resulting remote set is
persisted, matches are recomputed and announced, and the engine marks the
connection established. -/
theorem C3_contiguous_batch_applied (s : SyncState) (iid : String) (m : Message)
    (hsender : ¬ m.senderId = iid) (htype : m.type = "likes_batch")
    (hver : m.payload.likeVersion = some (s.partnerLikeVersion + 1)) :
    (∀ x, x ∈ ((handleMessage s iid m).1).partnerLikes ↔
        x ∈ s.partnerLikes ∨ x ∈ m.payload.likes.getD []) ∧
    ((handleMessage s iid m).1).partnerLikeVersion = s.partnerLikeVersion + 1 ∧
    ((handleMessage s iid m).1).storedPartnerLikes = ((handleMessage s iid m).1).partnerLikes ∧
    ((handleMessage s iid m).1).knownMatches = setOfList (getMatches (handleMessage s iid m).1) ∧
    (handleMessage s iid m).2 =
      [Event.matchesUpdated (getMatches (handleMessage s iid m).1),
       Event.connectionChange true, Event.connectedCb] := by
  unfold handleMessage
  rw [htype]
  simp only [beq_iff_eq, hsender, if_false]
  norm_num
  unfold handleLikesBatch
  rw [hver]
  simp only [ne_eq, not_true_eq_false, if_neg, ite_false, not_false_eq_true]
  unfold emitMatches
  refine ⟨fun x => ?_, rfl, rfl, rfl, rfl⟩
  simp [mem_foldl_setAdd]

/-- C3 witness: remote version 3 plus a batch with version 4 carrying
`["Noah"]` is applied, the remote set keeps `"Emma"` and gains `"Noah"`,
and the remote version becomes 4. -/
theorem C3_contiguous_batch_applied_witness :
    (¬ "peer-2" = "peer-1") ∧
      (∀ x, x ∈ ((handleMessage
        { myLikeVersion := 0, pendingLikeBuffer := [], debounceActive := false,
          partnerLikes := ["Emma"], partnerLikeVersion := 3, knownMatches := [],
          localLikes := ["Emma"], storedPartnerLikes := ["Emma"] }
        "peer-1"
        { type := "likes_batch", senderId := "peer-2",
          payload := { likes := some ["Noah"], likeVersion := some 4 } }).1).partnerLikes ↔
        x ∈ ["Emma"] ∨ x ∈ ["Noah"]) ∧
      ((handleMessage
        { myLikeVersion := 0, pendingLikeBuffer := [], debounceActive := false,
          partnerLikes := ["Emma"], partnerLikeVersion := 3, knownMatches := [],
          localLikes := ["Emma"], storedPartnerLikes := ["Emma"] }
        "peer-1"
        { type := "likes_batch", senderId := "peer-2",
          payload := { likes := some ["Noah"], likeVersion := some 4 } }).1).partnerLikeVersion
        = 4 := by
  have h := C3_contiguous_batch_applied
    { myLikeVersion := 0, pendingLikeBuffer := [], debounceActive := false,
      partnerLikes := ["Emma"], partnerLikeVersion := 3, knownMatches := [],
      localLikes := ["Emma"], storedPartnerLikes := ["Emma"] }
    "peer-1"
    { type := "likes_batch", senderId := "peer-2",
      payload := { likes := some ["Noah"], likeVersion := some 4 } }
    (by decide) (by decide) (by decide)
  exact ⟨by decide, fun x => h.1 x, h.2.1⟩

/-- C4: while in a room, all likes notified within one debounce window —
duplicates included — are coalesced by the flush into exactly one outgoing
`likes_batch` whose `likes` contain each distinct name exactly once, and
the first batch after a fresh join (`prepareForJoin`) carries
`likeVersion` 1. -/
theorem C4_window_coalescing (s : SyncState) (names : List String)
    (hne : ¬ names = []) (hall : ∀ n ∈ names, ¬ n = "") :
    ((notifyMany (prepareForJoin s) true names).2 ++
        (flushPendingLikes (notifyMany (prepareForJoin s) true names).1 true true).2).filter
        isPublishEvent =
      [Event.publish (OutMsg.likesBatch (names.foldl setAdd []) 1)] ∧
    (names.foldl setAdd []).Nodup ∧
    (∀ x, x ∈ names.foldl setAdd [] ↔ x ∈ names) := by
  have hprep : (prepareForJoin s).pendingLikeBuffer = [] := rfl
  have hprepv : (prepareForJoin s).myLikeVersion = 0 := rfl
  obtain ⟨hbuf, hver, hfil⟩ := notifyMany_result names (prepareForJoin s) hall
  rw [hprep] at hbuf
  have hne2 : ¬ names.foldl setAdd ([] : List String) = [] := by
    cases names with
    | nil => exact absurd rfl hne
    | cons n rest =>
      intro hcontr
      have hmem : n ∈ List.foldl setAdd [] (n :: rest) := by
        rw [mem_foldl_setAdd]
        exact Or.inr (List.mem_cons_self n rest)
      rw [hcontr] at hmem
      exact absurd hmem (List.not_mem_nil n)
  refine ⟨?_, nodup_foldl_setAdd names [] List.nodup_nil, fun x => ?_⟩
  · rw [List.filter_append, hfil, List.nil_append]
    unfold flushPendingLikes
    dsimp only
    rw [hbuf, hver, hprepv]
    simp [hne2, isPublishEvent, List.filter]
  · rw [mem_foldl_setAdd]
    simp

/-- C4 witness: `notifyLike("Olivia")`, `notifyLike("Noah")`, then
`notifyLike("Olivia")` again inside one window flush to exactly one
`likes_batch` `["Olivia", "Noah"]` with `likeVersion` 1. -/
theorem C4_window_coalescing_witness :
    (¬ (["Olivia", "Noah", "Olivia"] : List String) = []) ∧
      ((notifyMany (prepareForJoin
          { myLikeVersion := 7, pendingLikeBuffer := ["Ava"], debounceActive := true,
            partnerLikes := ["Emma"], partnerLikeVersion := 2, knownMatches := [],
            localLikes := ["Olivia"], storedPartnerLikes := ["Emma"] })
          true ["Olivia", "Noah", "Olivia"]).2 ++
        (flushPendingLikes (notifyMany (prepareForJoin
          { myLikeVersion := 7, pendingLikeBuffer := ["Ava"], debounceActive := true,
            partnerLikes := ["Emma"], partnerLikeVersion := 2, knownMatches := [],
            localLikes := ["Olivia"], storedPartnerLikes := ["Emma"] })
          true ["Olivia", "Noah", "Olivia"]).1 true true).2).filter isPublishEvent =
      [Event.publish (OutMsg.likesBatch ["Olivia", "Noah"] 1)] := by
  have h := C4_window_coalescing
    { myLikeVersion := 7, pendingLikeBuffer := ["Ava"], debounceActive := true,
      partnerLikes := ["Emma"], partnerLikeVersion := 2, knownMatches := [],
      localLikes := ["Olivia"], storedPartnerLikes := ["Emma"] }
    ["Olivia", "Noah", "Olivia"] (by decide) (by decide)
  refine ⟨by decide, ?_⟩
  have hb : (["Olivia", "Noah", "Olivia"] : List String).foldl setAdd [] = ["Olivia", "Noah"] := by
    decide
  rw [← hb]
  exact h.1

/-- C6: a well-formed `state_snapshot` (or `resync_response`) from a
foreign sender replaces the cached remote party state wholesale with the
payload's like list and version (previously cached items not in the
payload are dropped), persists the remote set, re-announces matches, and
ends with status `CONNECTED`; the connected status-change callback fires
exactly when the supervisor was not already `CONNECTED`, so repeated
snapshots do not re-fire it. -/
theorem C6_snapshot_wholesale_replace (st : NtfyState) (iid : String) (m : Message)
    (likes : List String) (v : Int)
    (hsender : ¬ m.senderId = iid)
    (htype : m.type = "state_snapshot" ∨ m.type = "resync_response")
    (husers : m.payload.users = none)
    (hlikes : m.payload.likes = some likes)
    (hver : m.payload.likeVersion = some v) :
    (∀ x, x ∈ ((ntfyHandleMessage st iid m).1).sync.partnerLikes ↔ x ∈ likes) ∧
    ((ntfyHandleMessage st iid m).1).sync.partnerLikeVersion = v ∧
    ((ntfyHandleMessage st iid m).1).sync.storedPartnerLikes =
      ((ntfyHandleMessage st iid m).1).sync.partnerLikes ∧
    TopEvent.uiMatchesUpdated (getMatches ((ntfyHandleMessage st iid m).1).sync) ∈
      (ntfyHandleMessage st iid m).2 ∧
    ((ntfyHandleMessage st iid m).1).status = ConnStatus.CONNECTED ∧
    (TopEvent.statusChange ConnStatus.CONNECTED connectedSpouseMsg ∈ (ntfyHandleMessage st iid m).2 ↔
      ¬ st.status = ConnStatus.CONNECTED) := by
  have hmsg := handleMessage_snapshot_eq st.sync iid m likes v hsender htype husers hlikes hver
  unfold ntfyHandleMessage
  rw [hmsg]
  unfold applyPartnerSnapshot emitMatches
  dsimp only
  by_cases hst : st.status = ConnStatus.CONNECTED
  · simp [applyEvents, applyEvent, hst, mem_setOfList, getMatches]
  · simp [applyEvents, applyEvent, hst, mem_setOfList, getMatches]

/-- C6 witness: with the supervisor already `CONNECTED`, a second snapshot
from the spouse replaces the cached remote set (dropping `"Emma"`, keeping
only the payload's `"Mia"`) without re-firing the connected callback. -/
theorem C6_snapshot_wholesale_replace_witness :
    (¬ "peer-2" = "peer-1") ∧
      ((∀ x, x ∈ ((ntfyHandleMessage
          { currentTopic := some "a7x2k9m1", storedTopic := some "a7x2k9m1",
            sessionGeneration := 1, status := ConnStatus.CONNECTED,
            sync := { myLikeVersion := 1, pendingLikeBuffer := [], debounceActive := false,
                      partnerLikes := ["Emma"], partnerLikeVersion := 3, knownMatches := [],
                      localLikes := ["Mia"], storedPartnerLikes := ["Emma"] } }
          "peer-1"
          { type := "state_snapshot", senderId := "peer-2",
            payload := { likes := some ["Mia"], likeVersion := some 4 } }).1).sync.partnerLikes ↔
          x ∈ ["Mia"]) ∧
        ¬ TopEvent.statusChange ConnStatus.CONNECTED connectedSpouseMsg ∈
          (ntfyHandleMessage
            { currentTopic := some "a7x2k9m1", storedTopic := some "a7x2k9m1",
              sessionGeneration := 1, status := ConnStatus.CONNECTED,
              sync := { myLikeVersion := 1, pendingLikeBuffer := [], debounceActive := false,
                        partnerLikes := ["Emma"], partnerLikeVersion := 3, knownMatches := [],
                        localLikes := ["Mia"], storedPartnerLikes := ["Emma"] } }
            "peer-1"
            { type := "state_snapshot", senderId := "peer-2",
              payload := { likes := some ["Mia"], likeVersion := some 4 } }).2) := by
  have h := C6_snapshot_wholesale_replace
    { currentTopic := some "a7x2k9m1", storedTopic := some "a7x2k9m1",
      sessionGeneration := 1, status := ConnStatus.CONNECTED,
      sync := { myLikeVersion := 1, pendingLikeBuffer := [], debounceActive := false,
                partnerLikes := ["Emma"], partnerLikeVersion := 3, knownMatches := [],
                localLikes := ["Mia"], storedPartnerLikes := ["Emma"] } }
    "peer-1"
    { type := "state_snapshot", senderId := "peer-2",
      payload := { likes := some ["Mia"], likeVersion := some 4 } }
    ["Mia"] 4 (by decide) (Or.inl rfl) rfl rfl rfl
  exact ⟨by decide, h.1, fun hmem => (h.2.2.2.2.2.mp hmem) rfl⟩

/-- C7: the local like version is reset to 0 by `prepareForJoin` (never
carried across a rejoin), is incremented exactly once per flush of a
non-empty pending buffer while in a room, is left untouched by every other
operation, and still advances — with the buffer cleared and no batch on
the wire — when the publish fails, making that batch a silent loss. -/
theorem C7_like_version_lifecycle (s : SyncState) (op : Op) :
    ((step s op).1).myLikeVersion =
      (match op with
       | Op.prepareForJoinOp => 0
       | Op.flushOp inRoom _ =>
         if inRoom = true ∧ ¬ s.pendingLikeBuffer = [] then s.myLikeVersion + 1
         else s.myLikeVersion
       | _ => s.myLikeVersion) ∧
    (step s (Op.flushOp true false)).2 = [] ∧
    ((step s (Op.flushOp true false)).1).pendingLikeBuffer = [] ∧
    (step s (Op.flushOp true true)).2 =
      (if s.pendingLikeBuffer = [] then []
       else [Event.publish (OutMsg.likesBatch s.pendingLikeBuffer (s.myLikeVersion + 1))]) := by
  have hflush : ∀ publishOk : Bool,
      ((flushPendingLikes s true publishOk).1).myLikeVersion =
        (if s.pendingLikeBuffer = [] then s.myLikeVersion else s.myLikeVersion + 1) ∧
      ((flushPendingLikes s true publishOk).1).pendingLikeBuffer = ([] : List String) ∧
      (flushPendingLikes s true publishOk).2 =
        (if s.pendingLikeBuffer = [] ∨ publishOk = false then []
         else [Event.publish (OutMsg.likesBatch s.pendingLikeBuffer (s.myLikeVersion + 1))]) := by
    intro publishOk
    unfold flushPendingLikes
    dsimp only
    by_cases hb : s.pendingLikeBuffer = []
    · simp [hb]
    · cases publishOk <;> simp [hb]
  refine ⟨?_, ?_, ?_, ?_⟩
  · cases op with
    | notifyLikeOp inRoom name => exact notifyLike_myLikeVersion s inRoom name
    | flushOp inRoom publishOk =>
      cases inRoom with
      | false => simp [step, flushPendingLikes]
      | true =>
        rw [show ((step s (Op.flushOp true publishOk)).1).myLikeVersion =
          ((flushPendingLikes s true publishOk).1).myLikeVersion from rfl, (hflush publishOk).1]
        by_cases hb : s.pendingLikeBuffer = [] <;> simp [hb]
    | handleMessageOp iid m => exact handleMessage_myLikeVersion s iid m
    | prepareForJoinOp => rfl
    | initializeFromStorageOp => rfl
    | sendJoinHandshakeOp => rfl
    | clearPendingLikesOp => rfl
    | resetPartnerStateOp => rfl
    | emitMatchesOp => rfl
  · rw [show (step s (Op.flushOp true false)).2 = (flushPendingLikes s true false).2 from rfl,
        (hflush false).2.2]
    simp
  · exact (hflush false).2.1
  · rw [show (step s (Op.flushOp true true)).2 = (flushPendingLikes s true true).2 from rfl,
        (hflush true).2.2]
    by_cases hb : s.pendingLikeBuffer = [] <;> simp [hb]

/-- C10: a `state_snapshot` whose payload carries a legacy `users` array
is resolved against the envelope's sender: the entry whose `userId`
equals `senderId` supplies the applied like list and version; when no
entry matches, the snapshot is ignored entirely — no state change, no
persistence, no callback. -/
theorem C10_legacy_users_snapshot (s : SyncState) (iid : String) (m : Message)
    (users : List UserEntry)
    (hsender : ¬ m.senderId = iid)
    (htype : m.type = "state_snapshot")
    (husers : m.payload.users = some users) :
    (users.find? (fun e => e.userId == m.senderId) = none →
      handleMessage s iid m = (s, [])) ∧
    (∀ e, users.find? (fun x => x.userId == m.senderId) = some e →
      handleMessage s iid m =
        applyPartnerSnapshot s
          { likes := some (e.likes.getD []), likeVersion := some (e.likeVersion.getD 0),
            users := none } ∧
      (∀ x, x ∈ ((handleMessage s iid m).1).partnerLikes ↔ x ∈ e.likes.getD []) ∧
      ((handleMessage s iid m).1).partnerLikeVersion = e.likeVersion.getD 0) := by
  have hbase : handleMessage s iid m =
      (match users.find? (fun e => e.userId == m.senderId) with
       | none => (s, [])
       | some e =>
         applyPartnerSnapshot s
           { likes := some (e.likes.getD []), likeVersion := some (e.likeVersion.getD 0),
             users := none }) := by
    unfold handleMessage
    rw [htype]
    simp only [beq_iff_eq, hsender, if_false]
    norm_num
    unfold resolveSnapshotPayload
    rw [husers]
    rw [if_neg (show ¬ ("state_snapshot" : String) = "join" from by decide)]
    dsimp only
    cases users.find? (fun e => e.userId == m.senderId) <;> rfl
  constructor
  · intro hf
    rw [hbase, hf]
  · intro e hf
    have he : handleMessage s iid m =
        applyPartnerSnapshot s
          { likes := some (e.likes.getD []), likeVersion := some (e.likeVersion.getD 0),
            users := none } := by
      rw [hbase, hf]
    refine ⟨he, fun x => ?_, ?_⟩
    · rw [he]
      unfold applyPartnerSnapshot emitMatches
      dsimp only
      exact mem_setOfList
    · rw [he]
      rfl

/-- C10 witness: a legacy `users` payload with entries for both peers
applies the sender's entry (`likes ["Emma"]`, version 2) and, had no
entry matched, would have been ignored. -/
theorem C10_legacy_users_snapshot_witness :
    (¬ "peer-2" = "peer-1") ∧
      (∀ e, ([{ userId := "peer-2", likes := some ["Emma"], likeVersion := some 2 }] :
          List UserEntry).find? (fun x => x.userId == "peer-2") = some e →
        (∀ x, x ∈ ((handleMessage
          { myLikeVersion := 0, pendingLikeBuffer := [], debounceActive := false,
            partnerLikes := [], partnerLikeVersion := 0, knownMatches := [],
            localLikes := ["Emma"], storedPartnerLikes := [] }
          "peer-1"
          { type := "state_snapshot", senderId := "peer-2",
            payload := { users := some ([{ userId := "peer-2", likes := some ["Emma"], likeVersion := some 2 }]) } }).1).partnerLikes ↔
          x ∈ e.likes.getD []) ∧
        ((handleMessage
          { myLikeVersion := 0, pendingLikeBuffer := [], debounceActive := false,
            partnerLikes := [], partnerLikeVersion := 0, knownMatches := [],
            localLikes := ["Emma"], storedPartnerLikes := [] }
          "peer-1"
          { type := "state_snapshot", senderId := "peer-2",
            payload := { users := some ([{ userId := "peer-2", likes := some ["Emma"], likeVersion := some 2 }]) } }).1).partnerLikeVersion
          = e.likeVersion.getD 0) := by
  have h := C10_legacy_users_snapshot
    { myLikeVersion := 0, pendingLikeBuffer := [], debounceActive := false,
      partnerLikes := [], partnerLikeVersion := 0, knownMatches := [],
      localLikes := ["Emma"], storedPartnerLikes := [] }
    "peer-1"
    { type := "state_snapshot", senderId := "peer-2",
      payload := { users := some ([{ userId := "peer-2", likes := some ["Emma"], likeVersion := some 2 }]) } }
    [{ userId := "peer-2", likes := some ["Emma"], likeVersion := some 2 }]
    (by decide) rfl rfl
  exact ⟨by decide, fun e hf => ⟨(h.2 e hf).2.1, (h.2 e hf).2.2⟩⟩

/-- C5: an envelope whose `senderId` equals the own instance identifier is
ignored entirely: no state change, no publish, no callback, regardless of
its type, payload, or version. -/
theorem C5_echo_suppression (s : SyncState) (iid : String) (m : Message)
    (hsender : m.senderId = iid) :
    handleMessage s iid m = (s, []) := by
  unfold handleMessage
  simp [hsender]

/-- C5 witness: a self-echoed `likes_batch` with a would-be-valid version
changes nothing and emits nothing. -/
theorem C5_echo_suppression_witness :
    handleMessage
      { myLikeVersion := 2, pendingLikeBuffer := ["Ava"], debounceActive := true,
        partnerLikes := [], partnerLikeVersion := 0, knownMatches := [],
        localLikes := ["Ava"], storedPartnerLikes := [] }
      "peer-1"
      { type := "likes_batch", senderId := "peer-1",
        payload := { likes := some ["Mia"], likeVersion := some 1 } } =
    ({ myLikeVersion := 2, pendingLikeBuffer := ["Ava"], debounceActive := true,
       partnerLikes := [], partnerLikeVersion := 0, knownMatches := [],
       localLikes := ["Ava"], storedPartnerLikes := [] }, []) :=
  C5_echo_suppression _ _ _ (by decide)

/-- C8 counterexample: with a valid room code and a channel open that
fails (timeout or connection error), `joinSession` has already persisted
the room code — the failed join leaves `storedTopic = some "a7x2k9m1"`
behind, refuting the claim that no stale room code survives a failed
join. -/
theorem C8_counterexample :
    ((joinSession
      { currentTopic := none, storedTopic := none, sessionGeneration := 0,
        status := ConnStatus.DISCONNECTED,
        sync := { myLikeVersion := 0, pendingLikeBuffer := [], debounceActive := false,
                  partnerLikes := [], partnerLikeVersion := 0, knownMatches := [],
                  localLikes := [], storedPartnerLikes := [] } }
      "a7x2k9m1" false).ok = false) ∧
    ((joinSession
      { currentTopic := none, storedTopic := none, sessionGeneration := 0,
        status := ConnStatus.DISCONNECTED,
        sync := { myLikeVersion := 0, pendingLikeBuffer := [], debounceActive := false,
                  partnerLikes := [], partnerLikeVersion := 0, knownMatches := [],
                  localLikes := [], storedPartnerLikes := [] } }
      "a7x2k9m1" false).state).storedTopic = some "a7x2k9m1" ∧
    ((joinSession
      { currentTopic := none, storedTopic := none, sessionGeneration := 0,
        status := ConnStatus.DISCONNECTED,
        sync := { myLikeVersion := 0, pendingLikeBuffer := [], debounceActive := false,
                  partnerLikes := [], partnerLikeVersion := 0, knownMatches := [],
                  localLikes := [], storedPartnerLikes := [] } }
      "a7x2k9m1" false).state).status = ConnStatus.ERROR := by
  refine ⟨?_, ?_, ?_⟩ <;> decide

/-- C8 (amended): `joinSession` rejects an invalid room code with nothing
persisted, but for a valid code it persists the room code to storage
before the channel is confirmed open, so a join that fails at connect
(timeout or connection error) leaves the just-persisted room code stored
and ends in `ERROR`. -/
theorem C8_join_persists_before_open (st : NtfyState) (roomCode : String) (openOk : Bool)
    (hv : isValidRoomCode (normalizeRoomCode roomCode) = true) :
    ((joinSession st roomCode openOk).state).storedTopic = some (normalizeRoomCode roomCode) ∧
    ((joinSession st roomCode openOk).state).currentTopic = some (normalizeRoomCode roomCode) ∧
    ((joinSession st roomCode false).state).storedTopic = some (normalizeRoomCode roomCode) ∧
    ((joinSession st roomCode false).state).status = ConnStatus.ERROR ∧
    (joinSession st roomCode false).ok = false ∧
    joinSession st "invalid!" openOk = { state := st, events := [], ok := false } := by
  have hbad : isValidRoomCode (normalizeRoomCode "invalid!") = false := by decide
  unfold joinSession
  dsimp only
  rw [hv, hbad]
  cases openOk <;> simp

/-- C8 amended-claim witness: joining `"a7x2k9m1"` persists the code
whether or not the open succeeds. -/
theorem C8_join_persists_before_open_witness :
    isValidRoomCode (normalizeRoomCode "a7x2k9m1") = true ∧
      ((joinSession
        { currentTopic := none, storedTopic := none, sessionGeneration := 0,
          status := ConnStatus.DISCONNECTED,
          sync := { myLikeVersion := 0, pendingLikeBuffer := [], debounceActive := false,
                    partnerLikes := [], partnerLikeVersion := 0, knownMatches := [],
                    localLikes := [], storedPartnerLikes := [] } }
        "a7x2k9m1" true).state).storedTopic = some (normalizeRoomCode "a7x2k9m1") :=
  ⟨by decide,
   (C8_join_persists_before_open
     { currentTopic := none, storedTopic := none, sessionGeneration := 0,
       status := ConnStatus.DISCONNECTED,
       sync := { myLikeVersion := 0, pendingLikeBuffer := [], debounceActive := false,
                 partnerLikes := [], partnerLikeVersion := 0, knownMatches := [],
                 localLikes := [], storedPartnerLikes := [] } }
     "a7x2k9m1" true (by decide)).1⟩

theorem calcBackoff_bounds (a : Nat) (r : ℚ) (h0 : 0 ≤ r) (h1 : r < 1)
    (hsmall : (2000 : ℚ) * 2 ^ a * (3 / 2) ≤ 30000) :
    (2000 * 2 ^ a : Int) ≤ calculateBackoffDelay a r ∧
      calculateBackoffDelay a r < 3000 * 2 ^ a := by
  have hE : (0 : ℚ) < 2000 * 2 ^ a := by positivity
  have harg : 2000 * 2 ^ a + 2000 * 2 ^ a * (1 / 2) * r < 2000 * 2 ^ a * (3 / 2) := by
    nlinarith
  have hargle : 2000 * 2 ^ a + 2000 * 2 ^ a * (1 / 2) * r ≤ 30000 :=
    le_trans harg.le hsmall
  unfold calculateBackoffDelay baseDelay jitterFactor maxDelay
  dsimp only
  rw [min_eq_left hargle]
  constructor
  · rw [Int.le_floor]
    push_cast
    nlinarith
  · rw [Int.floor_lt]
    push_cast
    nlinarith

theorem calcBackoff_cap (a : Nat) (r : ℚ) (h0 : 0 ≤ r)
    (hbig : (30000 : ℚ) ≤ 2000 * 2 ^ a) :
    calculateBackoffDelay a r = 30000 := by
  have hE : (0 : ℚ) < 2000 * 2 ^ a := by positivity
  have harg : (30000 : ℚ) ≤ 2000 * 2 ^ a + 2000 * 2 ^ a * (1 / 2) * r := by
    nlinarith
  unfold calculateBackoffDelay baseDelay jitterFactor maxDelay
  dsimp only
  rw [min_eq_right harg]
  norm_num

/-- C9: on an unexpected closure while the room is active, the reconnect
supervisor's all-failure run makes exactly `maxAttempts` attempts, whose
scheduled retry delays strictly increase up to the 30000 ms ceiling (the
last delay sits exactly at the ceiling) for every admissible jitter
sample, and after exhausting the budget the status settles to the
non-error `IN_ROOM` ('Spouse unavailable'), not `ERROR`. -/
theorem C9_reconnect_backoff (rand : Nat → ℚ)
    (hr : ∀ a, 0 ≤ rand a ∧ rand a < 1) :
    ((scheduleReconnectAllFail rand).1).length = maxAttempts - 1 ∧
    List.Chain' (fun d e => d < e) (scheduleReconnectAllFail rand).1 ∧
    (∀ d ∈ (scheduleReconnectAllFail rand).1, d ≤ 30000) ∧
    ((scheduleReconnectAllFail rand).1).getLast? = some 30000 ∧
    (scheduleReconnectAllFail rand).2 = ConnStatus.IN_ROOM ∧
    ¬ (scheduleReconnectAllFail rand).2 = ConnStatus.ERROR := by
  have hunfold : scheduleReconnectAllFail rand =
      ([calculateBackoffDelay 1 (rand 1), calculateBackoffDelay 2 (rand 2),
        calculateBackoffDelay 3 (rand 3), calculateBackoffDelay 4 (rand 4)],
       ConnStatus.IN_ROOM) := rfl
  have h1 := calcBackoff_bounds 1 (rand 1) (hr 1).1 (hr 1).2 (by norm_num)
  have h2 := calcBackoff_bounds 2 (rand 2) (hr 2).1 (hr 2).2 (by norm_num)
  have h3 := calcBackoff_bounds 3 (rand 3) (hr 3).1 (hr 3).2 (by norm_num)
  have h4 := calcBackoff_cap 4 (rand 4) (hr 4).1 (by norm_num)
  norm_num at h1 h2 h3
  rw [hunfold]
  refine ⟨rfl, ?_, ?_, ?_, rfl, fun h => ConnStatus.noConfusion h⟩
  · rw [h4]
    simp only [List.chain'_cons, List.chain'_singleton, and_true]
    omega
  · intro d hd
    rw [h4] at hd
    simp only [List.mem_cons, List.not_mem_nil, or_false] at hd
    rcases hd with hd | hd | hd | hd <;> omega
  · rw [h4]
    rfl

/-- C9 witness: with zero jitter throughout, the all-failure run schedules
the strictly increasing delays 4000, 8000, 16000, 30000 and settles on
`IN_ROOM`. -/
theorem C9_reconnect_backoff_witness :
    (∀ _a : Nat, 0 ≤ (0 : ℚ) ∧ (0 : ℚ) < 1) ∧
      List.Chain' (fun d e => d < e) (scheduleReconnectAllFail (fun _ => 0)).1 ∧
      (scheduleReconnectAllFail (fun _ => 0)).2 = ConnStatus.IN_ROOM :=
  ⟨fun _ => ⟨le_refl 0, by norm_num⟩,
   (C9_reconnect_backoff (fun _ => 0) (fun _ => ⟨le_refl 0, by norm_num⟩)).2.1,
   (C9_reconnect_backoff (fun _ => 0) (fun _ => ⟨le_refl 0, by norm_num⟩)).2.2.2.2.1⟩

end BabyNames
